import Mathlib

/-!
Verification of the easymd-horus plugin: a shallow embedding of the
launcher (`Include/easymd.py`, function `runMDSimulation`) and the worker
script (`Include/run_md_simulation.py`, function `main`), together with
theorems settling the specification claims about them.

Modelling conventions:
* Python strings are Lean `String`s; the Python `str` helpers used by the
  source (`rstrip`, `strip`, `startswith`, `split(":", 1)[1]`) are embedded
  as executable functions below.
* The filesystem is a list of path strings, each path written exactly the
  way the program addresses it (relative to the worker's working
  directory, or absolute).  `os.path.exists` becomes membership after
  normalising an absolute path back to its working-directory-relative
  form; `os.path.abspath` prefixes the working directory.
* The child process and the external `easy_md` toolkit are outside the
  repository; their observable behaviour (output lines, exit code, which
  pipeline stage raises) is supplied as environment data, and the
  embedding records which toolkit entry points were invoked.
-/

namespace EasyMD

/-- Whitespace characters stripped by Python's `str.strip`/`str.rstrip`. -/
def pyIsSpace (c : Char) : Bool :=
  c = ' ' || c = '\t' || c = '\n' || c = '\x0d' || c = '\x0b' || c = '\x0c'

/-- Python `s.rstrip()`: remove trailing whitespace. -/
def pyRstrip (s : String) : String :=
  String.mk ((s.data.reverse.dropWhile pyIsSpace).reverse)

/-- Python `s.lstrip()`: remove leading whitespace. -/
def pyLstrip (s : String) : String :=
  String.mk (s.data.dropWhile pyIsSpace)

/-- Python `s.strip()`: remove leading and trailing whitespace. -/
def pyStrip (s : String) : String :=
  pyLstrip (pyRstrip s)

/-- Does the character list `cs` start with the pattern `pat`? -/
def startsWithL : (pat cs : List Char) → Bool
  | [], _ => true
  | _ :: _, [] => false
  | p :: ps, c :: cs => p = c && startsWithL ps cs

/-- Python `s.startswith(pat)`. -/
def pyStartsWith (s pat : String) : Bool :=
  startsWithL pat.data s.data

/-- Everything after the first `':'` (the empty list when there is none).
On inputs containing a colon this is `s.split(":", 1)[1]` from the source;
the source only applies it to lines guarded by a `startswith` check whose
pattern contains a colon. -/
def afterColonL : List Char → List Char
  | [] => []
  | c :: cs => if c = ':' then cs else afterColonL cs

/-- Python `s.split(":", 1)[1]` for strings that contain a colon. -/
def splitColon1After (s : String) : String :=
  String.mk (afterColonL s.data)

/-- Does `needle` occur as a contiguous segment of the second list? -/
def containsSubL (needle : List Char) : List Char → Bool
  | [] => startsWithL needle []
  | c :: t => startsWithL needle (c :: t) || containsSubL needle t

/-- Substring occurrence on strings (Python's `needle in hay`). -/
def containsSubStr (needle hay : String) : Bool :=
  containsSubL needle.data hay.data

/-- The launcher's parsing state while streaming the child's output:
the two captured sentinel values and the lines echoed to the log
(easymd.py lines 157-180). -/
structure ParseState where
  topology_file : String
  trajectory_file : String
  log : List String
deriving DecidableEq, Repr

/-- One iteration of the launcher's streaming read loop
(easymd.py lines 172-180): rstrip the raw line, echo it, then capture it
as a sentinel value if it starts with `TOPOLOGY_FILE:` or
`TRAJECTORY_FILE:`. -/
def processLine (st : ParseState) (rawLine : String) : ParseState :=
  let line := pyRstrip rawLine
  let st := { st with log := st.log ++ [line] }
  if pyStartsWith line "TOPOLOGY_FILE:" then
    { st with topology_file := pyStrip (splitColon1After line) }
  else if pyStartsWith line "TRAJECTORY_FILE:" then
    { st with trajectory_file := pyStrip (splitColon1After line) }
  else st

/-- The whole streaming read loop over the child's output lines. -/
def processLines (lines : List String) (st : ParseState) : ParseState :=
  lines.foldl processLine st

/-- The flat simulation-parameter record the launcher serialises to the
temporary JSON file (easymd.py lines 114-122) and the worker reads back. -/
structure ParamsRecord where
  protein_file : String
  ligand_file : String
  md_steps : Int
  md_save_interval : Int
  platform_name : String
  platform_precision : String
  starting_state_path : String
deriving DecidableEq, Repr

/-- Python `repr` of a string that contains no quote characters. -/
def pyReprStr (s : String) : String :=
  "'" ++ s ++ "'"

/-- Python `str` of a list of such strings. -/
def pyReprStrList (xs : List String) : String :=
  "[" ++ String.intercalate ", " (xs.map pyReprStr) ++ "]"

/-- The command line the launcher builds (easymd.py lines 143-152);
`script_dir` stands for `os.path.dirname(os.path.abspath(__file__))` and
the worker script path for `os.path.join(script_dir, "run_md_simulation.py")`. -/
def launcherCmd (conda_env script_dir param_file_path : String) : List String :=
  ["/opt/homebrew/bin/micromamba", "run", "-n", conda_env, "python", "-u",
    script_dir ++ "/run_md_simulation.py", param_file_path]

/-- `str(subprocess.CalledProcessError(returncode, cmd))` for a positive
return code: `f"Command '{cmd}' returned non-zero exit status {returncode}."`,
where the command list is rendered with Python's `str` of a list. -/
def calledProcessErrorStr (returncode : Nat) (cmd : List String) : String :=
  "Command '" ++ pyReprStrList cmd ++ "' returned non-zero exit status " ++
    toString returncode ++ "."

/-- Everything one invocation of the launcher depends on: the host block's
inputs and variables (`block.inputs.get` / `block.variables.get`, absent
keys as `none`), the name the temp-file library picks, and the observable
behaviour of the external world (whether temp-file creation, JSON
serialisation, `Popen`, or the read loop raises; the child's output lines
and exit code).  The child's exit code is the value `p.wait()` returns for
a normally terminated process. -/
structure LauncherEnv where
  proteinInput : Option String
  ligandInput : Option String
  varMdSteps : Option Int := none
  varMdSaveInterval : Option Int := none
  varPlatformName : Option String := none
  varPlatformPrecision : Option String := none
  varStartingStatePath : Option String := none
  varCondaEnv : Option String := none
  scriptDir : String := "/plugin/Include"
  tmpName : String := "/tmp/tmpabc123.json"
  tempOpenFailure : Bool := false
  tempOpenFailureMsg : String := ""
  dumpFailure : Bool := false
  dumpFailureMsg : String := ""
  spawnFailure : Bool := false
  spawnFailureMsg : String := ""
  readFailAfter : Option (Nat × String) := none
  childLines : List String := []
  childExit : Nat := 0
deriving DecidableEq, Repr

/-- What one invocation of the launcher did: the exception it raised (as
its message) if any, whether the temporary parameter file was created and
whether it still exists afterwards, whether the child process was spawned,
the `block.setOutput` calls made (in order), the record written to the
parameter file, and every line the launcher printed. -/
structure LauncherResult where
  raised : Option String
  tempCreated : Bool
  tempExists : Bool
  spawned : Bool
  outputsSet : List (String × String)
  paramsWritten : Option ParamsRecord
  log : List String
deriving DecidableEq, Repr

/-- The launcher `runMDSimulation` (easymd.py lines 95-214).

Control flow from the source: the two input checks raise before the
`try` block; inside it, `tempfile.NamedTemporaryFile(delete=False)`
creates the file, `json.dump` writes it, and only then is
`param_file_path` bound — so an exception raised by `json.dump` reaches
the generic handler with the file on disk but with `"param_file_path" in
locals()` false, which skips the unlink and leaves the file behind.  An
exception from `Popen` or from the read loop reaches the same handler
with the path bound, so the file is removed.  A non-zero `p.wait()` raises
`CalledProcessError(return_code, cmd)` — constructed without any output,
so `e.stderr` is `None` and the handler's `if e.stderr:` branch is dead —
which the first handler turns into `Exception(error_msg)` after removing
the file.  On exit code zero the file is unlinked and the two captured
sentinel values are passed to `block.setOutput`. -/
def runMDSimulation (env : LauncherEnv) : LauncherResult :=
  match env.proteinInput with
  | none =>
    { raised := some "Protein file path is required.", tempCreated := false,
      tempExists := false, spawned := false, outputsSet := [],
      paramsWritten := none, log := [] }
  | some protein_path =>
    match env.ligandInput with
    | none =>
      { raised := some "Ligand file path is required.", tempCreated := false,
        tempExists := false, spawned := false, outputsSet := [],
        paramsWritten := none, log := [] }
    | some ligand_path =>
      let md_steps := env.varMdSteps.getD 1000
      let md_save_interval := env.varMdSaveInterval.getD 10
      let platform_name := env.varPlatformName.getD "CPU"
      let platform_precision := env.varPlatformPrecision.getD "mixed"
      let starting_state_path := env.varStartingStatePath.getD ""
      let conda_env := env.varCondaEnv.getD "easymd"
      let params : ParamsRecord :=
        { protein_file := protein_path, ligand_file := ligand_path,
          md_steps := md_steps, md_save_interval := md_save_interval,
          platform_name := platform_name, platform_precision := platform_precision,
          starting_state_path := starting_state_path }
      if env.tempOpenFailure then
        let error_msg := "Error during MD simulation setup: " ++ env.tempOpenFailureMsg
        { raised := some error_msg, tempCreated := false, tempExists := false,
          spawned := false, outputsSet := [], paramsWritten := none,
          log := [error_msg] }
      else if env.dumpFailure then
        let error_msg := "Error during MD simulation setup: " ++ env.dumpFailureMsg
        { raised := some error_msg, tempCreated := true, tempExists := true,
          spawned := false, outputsSet := [], paramsWritten := none,
          log := [error_msg] }
      else
        let param_file_path := env.tmpName
        let cmd := launcherCmd conda_env env.scriptDir param_file_path
        let preLog :=
          ["Created configuration for protein: " ++ protein_path,
            "Ligand: " ++ ligand_path,
            "MD Steps: " ++ toString md_steps ++ ", Save Interval: " ++
              toString md_save_interval,
            "Platform: " ++ platform_name ++ ", Precision: " ++ platform_precision,
            "Using conda environment: " ++ conda_env,
            "Starting MD simulation...",
            "Command: " ++ String.intercalate " " cmd]
        if env.spawnFailure then
          let error_msg := "Error during MD simulation setup: " ++ env.spawnFailureMsg
          { raised := some error_msg, tempCreated := true, tempExists := false,
            spawned := false, outputsSet := [], paramsWritten := some params,
            log := preLog ++ [error_msg] }
        else
          match env.readFailAfter with
          | some (k, msg) =>
            let st := processLines (env.childLines.take k) ⟨"", "", []⟩
            let error_msg := "Error during MD simulation setup: " ++ msg
            { raised := some error_msg, tempCreated := true, tempExists := false,
              spawned := true, outputsSet := [], paramsWritten := some params,
              log := preLog ++ st.log ++ [error_msg] }
          | none =>
            let st := processLines env.childLines ⟨"", "", []⟩
            if env.childExit ≠ 0 then
              let error_msg := "Error running MD simulation script: " ++
                calledProcessErrorStr env.childExit cmd
              { raised := some error_msg, tempCreated := true, tempExists := false,
                spawned := true, outputsSet := [], paramsWritten := some params,
                log := preLog ++ st.log ++ [error_msg] }
            else
              { raised := none, tempCreated := true, tempExists := false,
                spawned := true,
                outputsSet := [("topology_output", st.topology_file),
                  ("trajectory_output", st.trajectory_file)],
                paramsWritten := some params,
                log := preLog ++ st.log ++
                  ["MD simulation completed!",
                    "Topology file: " ++ st.topology_file,
                    "Trajectory file: " ++ st.trajectory_file] }

/-! ### Worker model

The worker runs with some absolute working directory `cwd` (Python's
`os.getcwd()`), and the filesystem is a list of the existing paths, each
written the way the worker addresses it: relative to `cwd` for the files
under `output/`, or exactly the string stored in the parameter record for
the validated input files. -/

/-- Strip the pattern from the front of `cs`, if it is a front segment. -/
def dropStart : (pat cs : List Char) → Option (List Char)
  | [], cs => some cs
  | _ :: _, [] => none
  | p :: ps, c :: cs => if p = c then dropStart ps cs else none

/-- Normalise a path back to its `cwd`-relative spelling when it lives
under `cwd`; other paths are left alone. -/
def relativize (cwd p : String) : String :=
  match dropStart (cwd ++ "/").data p.data with
  | some r => String.mk r
  | none => p

/-- `os.path.exists(p)` over the modelled filesystem `fs`. -/
def pexists (fs : List String) (cwd p : String) : Bool :=
  fs.contains (relativize cwd p)

/-- `os.path.abspath(p)` for an absolute `cwd` and a path `p` that is
either already absolute or a clean relative path. -/
def abspath (cwd p : String) : String :=
  if pyStartsWith p "/" then p else cwd ++ "/" ++ p

/-- The `*` step of the matcher: try matching the rest of the pattern
here, or consume one more (non-`/`) character under the `*`. -/
def globStar (matchRest : List Char → Bool) : List Char → Bool
  | [] => matchRest []
  | c :: cs => matchRest (c :: cs) || (decide (c ≠ '/') && globStar matchRest cs)

/-- Shell-style pattern matching for the patterns the worker uses: literal
characters plus `*`, where `*` matches any run of characters other than
`/` (as in `glob.glob` applied to a `dir/name` pattern). -/
def globMatchL : (pat cs : List Char) → Bool
  | [], cs => cs.isEmpty
  | '*' :: ps, cs => globStar (globMatchL ps) cs
  | p :: ps, cs =>
    match cs with
    | [] => false
    | c :: cs => decide (p = c) && globMatchL ps cs

/-- `glob.glob(pat)` over the modelled filesystem: the existing paths
matching the pattern, in directory-scan order (modelled as `fs` order). -/
def glob (fs : List String) (pat : String) : List String :=
  fs.filter (fun p => globMatchL pat.data p.data)

/-- The fixed ordered list of alternative topology filenames
(run_md_simulation.py lines 108-113). -/
def altTopoFiles : List String :=
  ["output/emin.pdb", "emin.pdb", "output/system.pdb", "system.pdb"]

/-- The fixed ordered list of trajectory glob patterns
(run_md_simulation.py lines 126-132). -/
def trajPatterns : List String :=
  ["output/md_trajectory_id_*.dcd", "output/md_trajectory*.dcd",
    "output/trajectory*.dcd", "md_trajectory_id_*.dcd", "trajectory.dcd"]

/-- The worker's topology resolution (run_md_simulation.py lines 98-119):
the resolved value of `topology_file` together with the warning/found
lines it prints.  The expected path is `os.path.abspath("output/emin.pdb")`;
if it does not exist the loop takes the first existing alternative, else
leaves the empty string. -/
def resolveTopologyFull (fs : List String) (cwd : String) : String × List String :=
  let topology_file := abspath cwd "output/emin.pdb"
  if pexists fs cwd topology_file then (topology_file, [])
  else
    let warn := "Warning: Expected topology file not found at " ++ topology_file
    match altTopoFiles.find? (fun f => pexists fs cwd f) with
    | some f =>
      (abspath cwd f, [warn, "Found topology file at: " ++ abspath cwd f])
    | none => ("", [warn])

/-- The resolved topology value alone. -/
def resolveTopology (fs : List String) (cwd : String) : String :=
  (resolveTopologyFull fs cwd).1

/-- The first match of the first pattern that matches anything. -/
def firstGlobMatch (fs : List String) : List String → Option String
  | [] => none
  | pat :: rest =>
    match glob fs pat with
    | [] => firstGlobMatch fs rest
    | m :: _ => some m

/-- The worker's trajectory resolution (run_md_simulation.py lines
99-141): the expected path keeps the source's misspelling
`output/md_trajetory_id_0.dcd`; the fallback loop takes the first match
(`matches[0]`) of the first pattern with any match. -/
def resolveTrajectoryFull (fs : List String) (cwd : String) : String × List String :=
  let trajectory_file := abspath cwd "output/md_trajetory_id_0.dcd"
  if pexists fs cwd trajectory_file then (trajectory_file, [])
  else
    let warn := "Warning: Expected trajectory file not found at " ++ trajectory_file
    match firstGlobMatch fs trajPatterns with
    | some m =>
      (abspath cwd m, [warn, "Found trajectory file at: " ++ abspath cwd m])
    | none => ("", [warn])

/-- The resolved trajectory value alone. -/
def resolveTrajectory (fs : List String) (cwd : String) : String :=
  (resolveTrajectoryFull fs cwd).1

/-- The external toolkit entry points the worker calls, in pipeline order
(run_md_simulation.py lines 57-95). -/
inductive Stage
  | createConfig
  | solvation
  | forcefieldParameterization
  | energyMinimization
  | simulation
deriving DecidableEq, Repr

/-- The full pipeline order. -/
def stageList : List Stage :=
  [Stage.createConfig, Stage.solvation, Stage.forcefieldParameterization,
    Stage.energyMinimization, Stage.simulation]

/-- Which exception handler of the worker's `main` fired:
`except FileNotFoundError` or the generic `except Exception`. -/
inductive WErr
  | fileNotFound (msg : String)
  | pipeline (msg : String)
deriving DecidableEq, Repr

/-- Everything one worker run depends on: the parsed parameter record
(the JSON load is assumed to succeed), the existing paths at validation
time (`fs0`) and after the pipeline (`fs1`), the absolute working
directory, and which external toolkit stage raises, if any, with its
message. -/
structure WorkerEnv where
  params : ParamsRecord
  fs0 : List String := []
  fs1 : List String := []
  cwd : String := "/work"
  failAt : Option Stage := none
  failMsg : String := ""
deriving DecidableEq, Repr

/-- What one worker run did: its exit code (`sys.exit(1)` or falling off
the end of `main` with status 0), the toolkit stages invoked in order,
every line printed to the combined output, and which handler fired. -/
structure WorkerResult where
  exitCode : Nat
  stages : List Stage
  output : List String
  err : Option WErr
deriving DecidableEq, Repr

/-- A line of 50 `=` characters (`"=" * 50`). -/
def eq50 : String := String.mk (List.replicate 50 '=')

/-- The banner and parameter echo the worker prints after loading the
parameter file (run_md_simulation.py lines 32-43). -/
def workerHeader (params_file : String) (p : ParamsRecord) : List String :=
  ["MD Simulation Script Started", eq50,
    "Parameters loaded from: " ++ params_file,
    "Protein file: " ++ p.protein_file,
    "Ligand file: " ++ p.ligand_file,
    "MD steps: " ++ toString p.md_steps,
    "Save interval: " ++ toString p.md_save_interval,
    "Platform: " ++ p.platform_name,
    "Precision: " ++ p.platform_precision] ++
  (if p.starting_state_path ≠ "" then
    ["Starting state: " ++ p.starting_state_path] else []) ++
  [eq50]

/-- The strictly sequential pipeline (run_md_simulation.py lines 57-95):
which stages were invoked, the progress lines printed, and whether every
stage succeeded.  `failAt` names the toolkit stage that raises, if any. -/
def pipelineRun (p : ParamsRecord) (failAt : Option Stage) :
    List Stage × List String × Bool :=
  let s := [Stage.createConfig]
  let out := ["Step 1: Creating configuration..."]
  if failAt = some Stage.createConfig then (s, out, false)
  else
    let out := out ++ ["✓ Configuration created successfully",
      "\nStep 2: Adding water (solvation)..."]
    let s := s ++ [Stage.solvation]
    if failAt = some Stage.solvation then (s, out, false)
    else
      let out := out ++ ["✓ Solvation completed successfully",
        "\nStep 3: Running force field parameterization..."]
      let s := s ++ [Stage.forcefieldParameterization]
      if failAt = some Stage.forcefieldParameterization then (s, out, false)
      else
        let out := out ++ ["✓ Force field parameterization completed successfully",
          "\nStep 4: Running energy minimization..."]
        let s := s ++ [Stage.energyMinimization]
        if failAt = some Stage.energyMinimization then (s, out, false)
        else
          let out := out ++ ["✓ Energy minimization completed successfully",
            "\nStep 5: Running MD simulation..."]
          let s := s ++ [Stage.simulation]
          if failAt = some Stage.simulation then (s, out, false)
          else
            let out := out ++
              [if p.starting_state_path ≠ "" then
                "✓ Simulation completed successfully with initial state: " ++
                  p.starting_state_path
              else "✓ Simulation completed successfully from minimized structure"]
            (s, out, true)

/-- The worker `main` (run_md_simulation.py lines 20-168).

From the source: a wrong argument count prints the usage line and exits 1
without entering the `try` block.  The three existence checks precede
every toolkit call and raise `FileNotFoundError`, caught by the dedicated
handler which prints `ERROR: <msg>` and exits 1.  A toolkit stage raising
reaches the generic handler, which prints `ERROR during MD simulation:
<msg>` (the traceback goes to stderr and is not modelled as a print) and
exits 1.  Otherwise the two outputs are resolved, the success banner and
the two sentinel lines are printed — the sentinel carries the resolved
path when it is non-empty and still exists, and otherwise the `Not found`
placeholder (whose trajectory text spells `trajectory` correctly, unlike
the expected path) — and `main` returns, so the process exits 0. -/
def workerMain (argv : List String) (env : WorkerEnv) : WorkerResult :=
  if argv.length ≠ 2 then
    { exitCode := 1, stages := [],
      output := ["Usage: python run_md_simulation.py <params_json_file>"],
      err := none }
  else
    let params_file := (argv.drop 1).headD ""
    let p := env.params
    let header := workerHeader params_file p
    if ¬ pexists env.fs0 env.cwd p.protein_file then
      let msg := "Protein file not found: " ++ p.protein_file
      { exitCode := 1, stages := [], output := header ++ ["ERROR: " ++ msg],
        err := some (WErr.fileNotFound msg) }
    else if ¬ pexists env.fs0 env.cwd p.ligand_file then
      let msg := "Ligand file not found: " ++ p.ligand_file
      { exitCode := 1, stages := [], output := header ++ ["ERROR: " ++ msg],
        err := some (WErr.fileNotFound msg) }
    else if p.starting_state_path ≠ "" ∧
        ¬ pexists env.fs0 env.cwd p.starting_state_path then
      let msg := "Starting state file not found: " ++ p.starting_state_path
      { exitCode := 1, stages := [], output := header ++ ["ERROR: " ++ msg],
        err := some (WErr.fileNotFound msg) }
    else
      match pipelineRun p env.failAt with
      | (stages, pout, false) =>
        { exitCode := 1, stages := stages,
          output := header ++ pout ++
            ["ERROR during MD simulation: " ++ env.failMsg],
          err := some (WErr.pipeline env.failMsg) }
      | (stages, pout, true) =>
        let (topology_file, topoLog) := resolveTopologyFull env.fs1 env.cwd
        let (trajectory_file, trajLog) := resolveTrajectoryFull env.fs1 env.cwd
        let topoLine :=
          if topology_file ≠ "" ∧ pexists env.fs1 env.cwd topology_file then
            "TOPOLOGY_FILE:" ++ topology_file
          else "TOPOLOGY_FILE:Not found - expected at output/emin.pdb"
        let trajLine :=
          if trajectory_file ≠ "" ∧ pexists env.fs1 env.cwd trajectory_file then
            "TRAJECTORY_FILE:" ++ trajectory_file
          else "TRAJECTORY_FILE:Not found - expected at output/md_trajectory_id_0.dcd"
        { exitCode := 0, stages := stages,
          output := header ++ pout ++ topoLog ++ trajLog ++
            ["\n" ++ eq50, "MD SIMULATION SETUP COMPLETED SUCCESSFULLY!", eq50,
              topoLine, trajLine],
          err := none }

/-! ### Concrete scenarios used by the witnesses and counterexamples -/

/-- A launcher invocation in which `json.dump` raises after the temp file
was created but before its name was recorded. -/
def envC1dump : LauncherEnv :=
  { proteinInput := some "prot.pdb", ligandInput := some "lig.sdf",
    dumpFailure := true,
    dumpFailureMsg := "Object of type ndarray is not JSON serializable" }

/-- A launcher invocation whose child exits with code 3. -/
def envC1fail : LauncherEnv :=
  { proteinInput := some "prot.pdb", ligandInput := some "lig.sdf", childExit := 3 }

/-- A launcher invocation whose child emits the two sentinel lines among
other output and exits 0. -/
def envC3run : LauncherEnv :=
  { proteinInput := some "prot.pdb", ligandInput := some "lig.sdf",
    childLines := ["MD Simulation Script Started",
      "TOPOLOGY_FILE:/a/emin.pdb",
      "Step 5: Running MD simulation...",
      "TRAJECTORY_FILE:/a/md_trajetory_id_0.dcd",
      "MD SIMULATION SETUP COMPLETED SUCCESSFULLY!"],
    childExit := 0 }

/-- A launcher invocation whose protein input is present but is the empty
string. -/
def envC4empty : LauncherEnv :=
  { proteinInput := some "", ligandInput := some "lig.sdf" }

/-- A launcher invocation with no protein input at all. -/
def envC4missing : LauncherEnv :=
  { proteinInput := none, ligandInput := some "lig.sdf" }

/-- A failing child that printed diagnostic output before exiting 2. -/
def envC5out : LauncherEnv :=
  { proteinInput := some "prot.pdb", ligandInput := some "lig.sdf",
    childLines := ["Traceback (most recent call last):", "boom"], childExit := 2 }

/-- The same invocation with a silent child. -/
def envC5silent : LauncherEnv :=
  { envC5out with childLines := [] }

/-- A failing child with exit code 7 for the amended-claim witness. -/
def envC5run : LauncherEnv :=
  { proteinInput := some "prot.pdb", ligandInput := some "lig.sdf",
    childLines := ["some diagnostics"], childExit := 7 }

/-- A worker run whose parameter file references a protein file that does
not exist (the modelled filesystem is empty at validation time). -/
def envC6 : WorkerEnv :=
  { params :=
      { protein_file := "prot.pdb", ligand_file := "lig.sdf", md_steps := 1000,
        md_save_interval := 10, platform_name := "CPU",
        platform_precision := "mixed", starting_state_path := "" } }

/-- A worker run that validates and whose pipeline succeeds, but after
which neither expected output file exists. -/
def envC7 : WorkerEnv :=
  { params :=
      { protein_file := "prot.pdb", ligand_file := "lig.sdf", md_steps := 500,
        md_save_interval := 10, platform_name := "CPU",
        platform_precision := "mixed", starting_state_path := "" },
    fs0 := ["prot.pdb", "lig.sdf"], fs1 := [], cwd := "/work" }

/-- A launcher invocation whose child exits 1. -/
def envC10fail : LauncherEnv :=
  { proteinInput := some "prot.pdb", ligandInput := some "lig.sdf", childExit := 1 }

/-! ### General helper lemmas -/

/-- Characterisation of the front-segment test. -/
theorem startsWithL_iff (pat : List Char) :
    ∀ cs, startsWithL pat cs = true ↔ ∃ r, cs = pat ++ r := by
  induction pat with
  | nil => intro cs; simp [startsWithL]
  | cons p ps ih =>
    intro cs
    cases cs with
    | nil => simp [startsWithL]
    | cons c cs' =>
      simp only [startsWithL, Bool.and_eq_true, decide_eq_true_eq, ih, List.cons_append,
        List.cons.injEq]
      constructor
      · rintro ⟨rfl, r, rfl⟩; exact ⟨r, rfl, rfl⟩
      · rintro ⟨r, rfl, rfl⟩; exact ⟨rfl, r, rfl⟩

/-- A list starts with its own front segment. -/
theorem startsWithL_append (pat r : List Char) : startsWithL pat (pat ++ r) = true :=
  (startsWithL_iff _ _).2 ⟨r, rfl⟩

/-- Stripping a front segment from itself-plus-a-tail yields the tail. -/
theorem dropStart_append (a b : List Char) : dropStart a (a ++ b) = some b := by
  induction a with
  | nil => rfl
  | cons c cs ih => simp [dropStart, ih]

/-- `relativize` undoes `cwd ++ "/" ++ ·`. -/
theorem relativize_append (cwd f : String) : relativize cwd (cwd ++ "/" ++ f) = f := by
  simp only [relativize]
  rw [show (cwd ++ "/" ++ f).data = (cwd ++ "/").data ++ f.data from rfl, dropStart_append]

/-- A relative path (not starting with `/`) is unchanged by `relativize`
under an absolute working directory. -/
theorem relativize_of_rel (cwd f : String) (hcwd : pyStartsWith cwd "/" = true)
    (hf : pyStartsWith f "/" = false) : relativize cwd f = f := by
  simp only [pyStartsWith] at hcwd hf
  obtain ⟨r, hr⟩ := (startsWithL_iff _ _).1 hcwd
  simp only [relativize]
  rw [show (cwd ++ "/").data = cwd.data ++ "/".data from rfl, hr]
  simp only [List.cons_append, List.nil_append]
  cases hfd : f.data with
  | nil => simp only [dropStart]
  | cons c t =>
    have hc : ('/' : Char) ≠ c := by
      intro hEq
      rw [hfd] at hf
      simp [startsWithL, hEq] at hf
      exact hf hEq
    simp only [dropStart, if_neg hc]

/-- `os.path.exists(os.path.abspath(f))` for a relative `f` is membership
of `f` itself in the modelled filesystem. -/
theorem pexists_abspath (fs : List String) (cwd f : String)
    (hf : pyStartsWith f "/" = false) :
    pexists fs cwd (abspath cwd f) = fs.contains f := by
  simp only [abspath, hf, Bool.false_eq_true, if_false, pexists, relativize_append]

/-- A literal head character of a pattern (other than `*`) forces the
matched string to start with that character. -/
theorem globMatchL_head (p : Char) (ps cs : List Char) (hp : p ≠ '*')
    (h : globMatchL (p :: ps) cs = true) : ∃ t, cs = p :: t := by
  cases cs with
  | nil =>
    exfalso
    rw [globMatchL] at h
    · exact Bool.false_ne_true h
    · exact hp
  | cons c t =>
    refine ⟨t, ?_⟩
    rw [globMatchL] at h
    · simp only [Bool.and_eq_true, decide_eq_true_eq] at h
      rw [h.1]
    · exact hp

/-- A list segment is found at the front. -/
theorem containsSubL_here (n b : List Char) : containsSubL n (n ++ b) = true := by
  cases h : n ++ b with
  | nil => rw [containsSubL, ← h]; exact startsWithL_append n b
  | cons c t => rw [containsSubL, ← h, startsWithL_append n b, Bool.true_or]

/-- Segment occurrence survives prepending. -/
theorem containsSubL_append_left (n a t : List Char) (h : containsSubL n t = true) :
    containsSubL n (a ++ t) = true := by
  induction a with
  | nil => exact h
  | cons c a ih => rw [List.cons_append, containsSubL, ih, Bool.or_true]

/-- String append is list append on the character data. -/
theorem data_append (s t : String) : (s ++ t).data = s.data ++ t.data := rfl

/-- Membership gives `List.contains`. -/
theorem contains_of_mem (fs : List String) (m : String) (h : m ∈ fs) :
    fs.contains m = true :=
  List.elem_eq_true_of_mem h

/-! ### Lemmas about the launcher's sentinel-line parsing -/

/-- `split(":", 1)[1]` on a line starting with `TOPOLOGY_FILE:` is
everything after that 14-character front segment, whose last character is
the line's first colon. -/
theorem splitColon1_topo (s : String) (h : pyStartsWith s "TOPOLOGY_FILE:" = true) :
    splitColon1After s = String.mk (s.data.drop 14) := by
  simp only [pyStartsWith] at h
  obtain ⟨r, hr⟩ := (startsWithL_iff _ _).1 h
  simp only [splitColon1After]
  rw [hr, show ("TOPOLOGY_FILE:".data ++ r).drop 14 = r from by
    rw [show (14 : Nat) = "TOPOLOGY_FILE:".data.length from rfl, List.drop_left]]
  rfl

/-- Same for `TRAJECTORY_FILE:`, a 16-character segment. -/
theorem splitColon1_traj (s : String) (h : pyStartsWith s "TRAJECTORY_FILE:" = true) :
    splitColon1After s = String.mk (s.data.drop 16) := by
  simp only [pyStartsWith] at h
  obtain ⟨r, hr⟩ := (startsWithL_iff _ _).1 h
  simp only [splitColon1After]
  rw [hr, show ("TRAJECTORY_FILE:".data ++ r).drop 16 = r from by
    rw [show (16 : Nat) = "TRAJECTORY_FILE:".data.length from rfl, List.drop_left]]
  rfl

/-- Effect of the loop body on a topology sentinel line. -/
theorem processLine_topo (st : ParseState) (raw : String)
    (h : pyStartsWith (pyRstrip raw) "TOPOLOGY_FILE:" = true) :
    processLine st raw =
      { st with topology_file := pyStrip (splitColon1After (pyRstrip raw)),
                log := st.log ++ [pyRstrip raw] } := by
  simp [processLine, h]

/-- Effect of the loop body on a trajectory sentinel line (which can
never also be a topology sentinel line). -/
theorem processLine_traj (st : ParseState) (raw : String)
    (h : pyStartsWith (pyRstrip raw) "TRAJECTORY_FILE:" = true) :
    processLine st raw =
      { st with trajectory_file := pyStrip (splitColon1After (pyRstrip raw)),
                log := st.log ++ [pyRstrip raw] } := by
  have h' : pyStartsWith (pyRstrip raw) "TOPOLOGY_FILE:" = false := by
    simp only [pyStartsWith] at h ⊢
    obtain ⟨r, hr⟩ := (startsWithL_iff _ _).1 h
    rw [hr]
    rfl
  simp [processLine, h, h']

/-- A line that is neither sentinel only gets echoed. -/
theorem processLine_other (st : ParseState) (raw : String)
    (h1 : pyStartsWith (pyRstrip raw) "TOPOLOGY_FILE:" = false)
    (h2 : pyStartsWith (pyRstrip raw) "TRAJECTORY_FILE:" = false) :
    processLine st raw = { st with log := st.log ++ [pyRstrip raw] } := by
  simp [processLine, h1, h2]

/-- Every line is echoed (rstripped) to the log. -/
theorem processLine_log (st : ParseState) (raw : String) :
    (processLine st raw).log = st.log ++ [pyRstrip raw] := by
  simp only [processLine]
  split
  · rfl
  · split <;> rfl

/-- A non-topology-sentinel line leaves the topology capture alone. -/
theorem processLine_topo_of_not (st : ParseState) (z : String)
    (h : pyStartsWith (pyRstrip z) "TOPOLOGY_FILE:" = false) :
    (processLine st z).topology_file = st.topology_file := by
  simp only [processLine, h, Bool.false_eq_true, if_false]
  split <;> rfl

/-- A run of lines without topology sentinels preserves the capture. -/
theorem processLines_topo_of_not (zs : List String) (st : ParseState)
    (h : ∀ z ∈ zs, pyStartsWith (pyRstrip z) "TOPOLOGY_FILE:" = false) :
    (processLines zs st).topology_file = st.topology_file := by
  induction zs generalizing st with
  | nil => rfl
  | cons z zs ih =>
    simp only [processLines, List.foldl_cons] at *
    rw [ih (processLine st z) (fun w hw => h w (List.mem_cons_of_mem _ hw)),
      processLine_topo_of_not st z (h z (List.mem_cons_self _ _))]

/-! ### Claim C1 -/

/-- Claim C1, counterexample: when `json.dump` raises after the temporary
parameter file has been created (`delete=False`) but before
`param_file_path` is bound, the launcher raises — but the handler's
`"param_file_path" in locals()` guard skips the unlink, so the temporary
file it created still exists afterwards, contradicting the claim that the
file has been removed on every exit path. -/
theorem c1_counterexample :
    (runMDSimulation envC1dump).raised.isSome = true ∧
    (runMDSimulation envC1dump).tempCreated = true ∧
    (runMDSimulation envC1dump).tempExists = true := by
  decide

/-- Claim C1, amended: on every exit path other than an exception raised
between the temporary file's creation and the recording of its name
(modelled by `dumpFailure`), the temporary parameter file is absent
afterwards — in particular it is absent when it was never created, when
preparation or launch raised after its name was recorded, and on child
success or failure; and whenever the child process exits with a non-zero
code the launcher raises. -/
theorem c1_cleanup_on_exit (env : LauncherEnv) (hdump : env.dumpFailure = false) :
    (runMDSimulation env).tempExists = false ∧
    ((runMDSimulation env).spawned = true → env.readFailAfter = none →
      env.childExit ≠ 0 → (runMDSimulation env).raised.isSome = true) := by
  obtain ⟨pi, li, v1, v2, v3, v4, v5, v6, sd, tn, tof, tom, df, dm, spf, spm, rfa, cl, ce⟩ := env
  subst hdump
  cases pi <;> cases li <;> cases tof <;> cases spf <;> cases rfa <;>
    by_cases hce : ce = 0 <;> simp_all [runMDSimulation]

/-- Claim C1, witness: a child that exits 3 makes the launcher raise, and
the temporary parameter file is absent afterwards. -/
theorem c1_cleanup_on_exit_witness :
    (runMDSimulation envC1fail).tempExists = false ∧
    (runMDSimulation envC1fail).raised.isSome = true := by
  have h := c1_cleanup_on_exit envC1fail rfl
  exact ⟨h.1, h.2 (by decide) rfl (by decide)⟩

/-! ### Claim C2 -/

/-- Claim C2: every output line of the child is echoed (rstripped) to the
log; a line whose rstripped form starts with `TOPOLOGY_FILE:` overwrites
the topology capture with everything after the first colon (stripped,
i.e. everything after the 14-character sentinel whose last character is
the line's first colon) and leaves the trajectory capture alone; dually
for `TRAJECTORY_FILE:` (16 characters); a line matching neither leaves
both captures unchanged and is only echoed; and over a whole stream the
captured topology value is the one of the last topology sentinel line,
not the first. -/
theorem c2_sentinel_line_parsing :
    (∀ (st : ParseState) (raw : String),
      (processLine st raw).log = st.log ++ [pyRstrip raw]) ∧
    (∀ (st : ParseState) (raw : String),
      pyStartsWith (pyRstrip raw) "TOPOLOGY_FILE:" = true →
      (processLine st raw).topology_file =
        pyStrip (String.mk ((pyRstrip raw).data.drop 14)) ∧
      (processLine st raw).trajectory_file = st.trajectory_file) ∧
    (∀ (st : ParseState) (raw : String),
      pyStartsWith (pyRstrip raw) "TRAJECTORY_FILE:" = true →
      (processLine st raw).trajectory_file =
        pyStrip (String.mk ((pyRstrip raw).data.drop 16)) ∧
      (processLine st raw).topology_file = st.topology_file) ∧
    (∀ (st : ParseState) (raw : String),
      pyStartsWith (pyRstrip raw) "TOPOLOGY_FILE:" = false →
      pyStartsWith (pyRstrip raw) "TRAJECTORY_FILE:" = false →
      processLine st raw = { st with log := st.log ++ [pyRstrip raw] }) ∧
    (∀ (xs zs : List String) (l : String) (st : ParseState),
      pyStartsWith (pyRstrip l) "TOPOLOGY_FILE:" = true →
      (∀ z ∈ zs, pyStartsWith (pyRstrip z) "TOPOLOGY_FILE:" = false) →
      (processLines (xs ++ l :: zs) st).topology_file =
        pyStrip (String.mk ((pyRstrip l).data.drop 14))) := by
  refine ⟨processLine_log, ?_, ?_, processLine_other, ?_⟩
  · intro st raw h
    rw [processLine_topo st raw h, splitColon1_topo _ h]
    exact ⟨rfl, rfl⟩
  · intro st raw h
    rw [processLine_traj st raw h, splitColon1_traj _ h]
    exact ⟨rfl, rfl⟩
  · intro xs zs l st hl hzs
    simp only [processLines, List.foldl_append, List.foldl_cons]
    rw [show (List.foldl processLine (processLine (List.foldl processLine st xs) l) zs) =
      processLines zs (processLine (List.foldl processLine st xs) l) from rfl,
      processLines_topo_of_not zs _ hzs, processLine_topo _ _ hl, splitColon1_topo _ hl]

/-- Claim C2, witness: when the topology sentinel appears twice, the
captured value is the last occurrence. -/
theorem c2_witness :
    pyStartsWith (pyRstrip "TOPOLOGY_FILE:/first/emin.pdb") "TOPOLOGY_FILE:" = true ∧
    (processLines ["TOPOLOGY_FILE:/first/emin.pdb", "TOPOLOGY_FILE:/second/emin.pdb",
      "some progress line"] ⟨"", "", []⟩).topology_file = "/second/emin.pdb" := by
  refine ⟨by decide, ?_⟩
  have h := c2_sentinel_line_parsing.2.2.2.2 ["TOPOLOGY_FILE:/first/emin.pdb"]
    ["some progress line"] "TOPOLOGY_FILE:/second/emin.pdb" ⟨"", "", []⟩
    (by decide) (by decide)
  exact h.trans (by decide)

/-! ### Claim C3 -/

/-- Claim C3: when the spawned child exits with code 0 (and the read loop
did not raise), the launcher deletes the temporary parameter file, raises
nothing, and reports exactly the two captured sentinel values — whatever
they are, including empty strings — through `block.setOutput`. -/
theorem c3_zero_exit_reports_captured (env : LauncherEnv)
    (hspawn : (runMDSimulation env).spawned = true)
    (hread : env.readFailAfter = none)
    (hexit : env.childExit = 0) :
    (runMDSimulation env).tempExists = false ∧
    (runMDSimulation env).raised = none ∧
    (runMDSimulation env).outputsSet =
      [("topology_output", (processLines env.childLines ⟨"", "", []⟩).topology_file),
        ("trajectory_output", (processLines env.childLines ⟨"", "", []⟩).trajectory_file)] := by
  obtain ⟨pi, li, v1, v2, v3, v4, v5, v6, sd, tn, tof, tom, df, dm, spf, spm, rfa, cl, ce⟩ := env
  subst hexit
  subst hread
  cases pi <;> cases li <;> cases tof <;> cases df <;> cases spf <;>
    simp_all [runMDSimulation]

/-- Claim C3, witness: a worker run emitting the two sentinel lines among
other lines and exiting 0 makes the launcher report exactly those two
paths. -/
theorem c3_zero_exit_reports_captured_witness :
    (runMDSimulation envC3run).spawned = true ∧
    (runMDSimulation envC3run).outputsSet =
      [("topology_output", "/a/emin.pdb"),
        ("trajectory_output", "/a/md_trajetory_id_0.dcd")] := by
  refine ⟨by decide, ?_⟩
  have h := c3_zero_exit_reports_captured envC3run (by decide) rfl rfl
  exact h.2.2.trans (by decide)

/-! ### Claim C4 -/

/-- Claim C4, counterexample: a present-but-empty protein path passes the
launcher's `is None` checks, so the invocation proceeds to spawn the child
with an empty `protein_file` in the parameter record — the claim's
invariant that both mandatory file paths are non-empty before invocation
does not hold. -/
theorem c4_counterexample :
    (runMDSimulation envC4empty).raised = none ∧
    (runMDSimulation envC4empty).spawned = true ∧
    (runMDSimulation envC4empty).paramsWritten.map ParamsRecord.protein_file =
      some "" := by
  decide

/-- Claim C4, amended: when the protein or ligand input is missing
(absent from `block.inputs`, i.e. `None`), the launcher raises before any
child process is spawned and before any temporary file is created or left
behind; and whenever a child is spawned, both mandatory inputs were
present (non-`None`) — but they may be empty strings. -/
theorem c4_missing_input_fails_before_spawn (env : LauncherEnv) :
    ((env.proteinInput = none ∨ env.ligandInput = none) →
      (runMDSimulation env).raised.isSome = true ∧
      (runMDSimulation env).spawned = false ∧
      (runMDSimulation env).tempCreated = false ∧
      (runMDSimulation env).tempExists = false) ∧
    ((runMDSimulation env).spawned = true →
      env.proteinInput.isSome = true ∧ env.ligandInput.isSome = true) := by
  obtain ⟨pi, li, v1, v2, v3, v4, v5, v6, sd, tn, tof, tom, df, dm, spf, spm, rfa, cl, ce⟩ := env
  cases pi <;> cases li <;> cases tof <;> cases df <;> cases spf <;> cases rfa <;>
    by_cases hce : ce = 0 <;> simp_all [runMDSimulation]

/-- Claim C4, witness: with the protein input missing the launcher raises
without spawning a child or creating a temporary file. -/
theorem c4_missing_input_fails_before_spawn_witness :
    (runMDSimulation envC4missing).raised.isSome = true ∧
    (runMDSimulation envC4missing).spawned = false ∧
    (runMDSimulation envC4missing).tempCreated = false ∧
    (runMDSimulation envC4missing).tempExists = false :=
  (c4_missing_input_fails_before_spawn envC4missing).1 (Or.inl rfl)

/-! ### Claim C5 -/

set_option maxRecDepth 4000 in
/-- Claim C5, counterexample: the launcher raises
`CalledProcessError(return_code, cmd)` without any output, and `e.stderr`
is always `None` (stderr was merged into the streamed stdout), so the
raised failure's message is identical whether the failing child printed
diagnostics or nothing at all, and the child's actual output text does
not occur in it — the message cannot identify the accumulated output. -/
theorem c5_counterexample :
    (runMDSimulation envC5out).raised = (runMDSimulation envC5silent).raised ∧
    (runMDSimulation envC5out).raised.isSome = true ∧
    containsSubStr "boom" ((runMDSimulation envC5out).raised.getD "") = false := by
  decide

/-- Claim C5, amended: when the spawned child exits with a non-zero code,
the launcher raises a failure whose message identifies the non-zero exit
status (it contains the decimal status and the words `returned non-zero
exit status`), but the message is independent of the child's output
lines, which are echoed to the log rather than included in the failure. -/
theorem c5_failure_message_status_only (env : LauncherEnv) (p l : String)
    (hpi : env.proteinInput = some p) (hli : env.ligandInput = some l)
    (htof : env.tempOpenFailure = false) (hdf : env.dumpFailure = false)
    (hspf : env.spawnFailure = false) (hread : env.readFailAfter = none)
    (hexit : env.childExit ≠ 0) :
    ∃ msg, (runMDSimulation env).raised = some msg ∧
      containsSubStr (toString env.childExit) msg = true ∧
      containsSubStr "returned non-zero exit status" msg = true ∧
      ∀ lines, (runMDSimulation { env with childLines := lines }).raised = some msg := by
  obtain ⟨pi, li, v1, v2, v3, v4, v5, v6, sd, tn, tof, tom, df, dm, spf, spm, rfa, cl, ce⟩ := env
  simp only at hpi hli htof hdf hspf hread hexit
  subst hpi; subst hli; subst htof; subst hdf; subst hspf; subst hread
  refine ⟨"Error running MD simulation script: " ++
    calledProcessErrorStr ce (launcherCmd (v6.getD "easymd") sd tn), ?_, ?_, ?_, ?_⟩
  · simp [runMDSimulation, hexit]
  · simp only [containsSubStr, calledProcessErrorStr, data_append, List.append_assoc]
    apply containsSubL_append_left
    apply containsSubL_append_left
    apply containsSubL_append_left
    apply containsSubL_append_left
    exact containsSubL_here _ _
  · simp only [containsSubStr, calledProcessErrorStr, data_append, List.append_assoc]
    apply containsSubL_append_left
    apply containsSubL_append_left
    apply containsSubL_append_left
    exact containsSubL_append_left _ ['\'', ' '] _ (containsSubL_here _ _)
  · intro lines
    simp [runMDSimulation, hexit]

/-- Claim C5, witness: a child exiting 7 yields a raised message
containing the status, independent of the child's output. -/
theorem c5_failure_message_status_only_witness :
    envC5run.childExit ≠ 0 ∧
    ∃ msg, (runMDSimulation envC5run).raised = some msg ∧
      containsSubStr (toString envC5run.childExit) msg = true ∧
      containsSubStr "returned non-zero exit status" msg = true ∧
      ∀ lines, (runMDSimulation { envC5run with childLines := lines }).raised = some msg :=
  ⟨by decide, c5_failure_message_status_only envC5run "prot.pdb" "lig.sdf"
    rfl rfl rfl rfl rfl rfl (by decide)⟩

/-! ### Claim C6 -/

/-- Claim C6: a worker run whose parameter file references a protein,
ligand, or (when non-empty) starting-state file that does not exist exits
with code 1 through the dedicated `FileNotFoundError` handler — distinct
from the generic pipeline handler — and invokes no pipeline stage. -/
theorem c6_worker_validation_fails_fast (argv : List String) (env : WorkerEnv)
    (hargv : argv.length = 2)
    (h : pexists env.fs0 env.cwd env.params.protein_file = false ∨
      pexists env.fs0 env.cwd env.params.ligand_file = false ∨
      (env.params.starting_state_path ≠ "" ∧
        pexists env.fs0 env.cwd env.params.starting_state_path = false)) :
    (workerMain argv env).exitCode = 1 ∧
    (workerMain argv env).stages = [] ∧
    ∃ m, (workerMain argv env).err = some (WErr.fileNotFound m) := by
  rcases h with h | h | h
  · simp [workerMain, hargv, h]
  · by_cases h1 : pexists env.fs0 env.cwd env.params.protein_file = true
    · simp [workerMain, hargv, h1, h]
    · simp [workerMain, hargv, h1]
  · by_cases h1 : pexists env.fs0 env.cwd env.params.protein_file = true
    · by_cases h2 : pexists env.fs0 env.cwd env.params.ligand_file = true
      · simp [workerMain, hargv, h1, h2, h.1, h.2]
      · simp [workerMain, hargv, h1, h2]
    · simp [workerMain, hargv, h1]

/-- Claim C6, witness: a parameter file referencing a non-existent
protein file makes the worker exit 1 without invoking any stage. -/
theorem c6_worker_validation_fails_fast_witness :
    pexists envC6.fs0 envC6.cwd envC6.params.protein_file = false ∧
    (workerMain ["run_md_simulation.py", "/tmp/params.json"] envC6).exitCode = 1 ∧
    (workerMain ["run_md_simulation.py", "/tmp/params.json"] envC6).stages = [] ∧
    ∃ m, (workerMain ["run_md_simulation.py", "/tmp/params.json"] envC6).err =
      some (WErr.fileNotFound m) :=
  ⟨by decide, c6_worker_validation_fails_fast ["run_md_simulation.py", "/tmp/params.json"]
    envC6 rfl (Or.inl (by decide))⟩

/-! ### Lemmas about the worker's pipeline and output resolution -/

/-- With no failing stage the pipeline invokes all five toolkit entry
points in order and succeeds. -/
theorem pipelineRun_none (p : ParamsRecord) :
    pipelineRun p none = (stageList,
      ["Step 1: Creating configuration...", "✓ Configuration created successfully",
        "\nStep 2: Adding water (solvation)...", "✓ Solvation completed successfully",
        "\nStep 3: Running force field parameterization...",
        "✓ Force field parameterization completed successfully",
        "\nStep 4: Running energy minimization...",
        "✓ Energy minimization completed successfully",
        "\nStep 5: Running MD simulation...",
        if p.starting_state_path ≠ "" then
          "✓ Simulation completed successfully with initial state: " ++ p.starting_state_path
        else "✓ Simulation completed successfully from minimized structure"], true) := by
  simp [pipelineRun, stageList]

/-- None of the alternative topology filenames is absolute. -/
theorem altTopo_not_abs (f : String) (h : f ∈ altTopoFiles) :
    pyStartsWith f "/" = false := by
  simp only [altTopoFiles, List.mem_cons, List.not_mem_nil, or_false] at h
  rcases h with rfl | rfl | rfl | rfl <;> decide

/-- A non-empty resolved topology path exists on the modelled filesystem,
so the worker's final report check accepts it. -/
theorem resolveTopology_pexists (fs : List String) (cwd : String)
    (hcwd : pyStartsWith cwd "/" = true)
    (hne : resolveTopology fs cwd ≠ "") :
    pexists fs cwd (resolveTopology fs cwd) = true := by
  by_cases hexp : pexists fs cwd (abspath cwd "output/emin.pdb") = true
  · simp [resolveTopology, resolveTopologyFull, hexp]
  · have hexp' : pexists fs cwd (abspath cwd "output/emin.pdb") = false :=
      Bool.not_eq_true _ ▸ Bool.eq_false_iff.2 hexp
    simp only [resolveTopology, resolveTopologyFull, hexp', Bool.false_eq_true,
      if_false] at hne ⊢
    cases hfind : altTopoFiles.find? (fun f => pexists fs cwd f) with
    | none => simp [hfind] at hne
    | some f =>
      simp only [hfind]
      have hmem : f ∈ altTopoFiles := List.mem_of_find?_eq_some hfind
      have hpf : pexists fs cwd f = true := List.find?_some hfind
      have hrel : pyStartsWith f "/" = false := altTopo_not_abs f hmem
      rw [pexists_abspath fs cwd f hrel]
      rw [pexists, relativize_of_rel cwd f hcwd hrel] at hpf
      exact hpf

/-- A successful pattern search returns a match of one of the patterns. -/
theorem firstGlobMatch_some (fs : List String) (pats : List String) (m : String)
    (h : firstGlobMatch fs pats = some m) : ∃ pat, pat ∈ pats ∧ m ∈ glob fs pat := by
  induction pats with
  | nil => simp [firstGlobMatch] at h
  | cons pat rest ih =>
    rw [firstGlobMatch] at h
    cases hg : glob fs pat with
    | nil =>
      rw [hg] at h
      obtain ⟨q, hq, hmq⟩ := ih h
      exact ⟨q, List.mem_cons_of_mem _ hq, hmq⟩
    | cons x xs =>
      rw [hg] at h
      simp only [Option.some.injEq] at h
      exact ⟨pat, List.mem_cons_self _ _, by rw [hg, ← h]; exact List.mem_cons_self _ _⟩

/-- A path matching any of the worker's trajectory patterns is relative:
each pattern starts with a literal `o`, `m` or `t`. -/
theorem trajGlob_not_abs (pat m : String) (hpat : pat ∈ trajPatterns)
    (hmatch : globMatchL pat.data m.data = true) : pyStartsWith m "/" = false := by
  simp only [trajPatterns, List.mem_cons, List.not_mem_nil, or_false] at hpat
  rcases hpat with rfl | rfl | rfl | rfl | rfl
  · have hm2 : globMatchL ('o' :: "utput/md_trajectory_id_*.dcd".data) m.data = true := hmatch
    obtain ⟨t, ht⟩ := globMatchL_head 'o' _ _ (by decide) hm2
    simp [pyStartsWith, ht, startsWithL]
  · have hm2 : globMatchL ('o' :: "utput/md_trajectory*.dcd".data) m.data = true := hmatch
    obtain ⟨t, ht⟩ := globMatchL_head 'o' _ _ (by decide) hm2
    simp [pyStartsWith, ht, startsWithL]
  · have hm2 : globMatchL ('o' :: "utput/trajectory*.dcd".data) m.data = true := hmatch
    obtain ⟨t, ht⟩ := globMatchL_head 'o' _ _ (by decide) hm2
    simp [pyStartsWith, ht, startsWithL]
  · have hm2 : globMatchL ('m' :: "d_trajectory_id_*.dcd".data) m.data = true := hmatch
    obtain ⟨t, ht⟩ := globMatchL_head 'm' _ _ (by decide) hm2
    simp [pyStartsWith, ht, startsWithL]
  · have hm2 : globMatchL ('t' :: "rajectory.dcd".data) m.data = true := hmatch
    obtain ⟨t, ht⟩ := globMatchL_head 't' _ _ (by decide) hm2
    simp [pyStartsWith, ht, startsWithL]

/-- A non-empty resolved trajectory path exists on the modelled
filesystem, so the worker's final report check accepts it. -/
theorem resolveTrajectory_pexists (fs : List String) (cwd : String)
    (hne : resolveTrajectory fs cwd ≠ "") :
    pexists fs cwd (resolveTrajectory fs cwd) = true := by
  by_cases hexp : pexists fs cwd (abspath cwd "output/md_trajetory_id_0.dcd") = true
  · simp [resolveTrajectory, resolveTrajectoryFull, hexp]
  · have hexp' : pexists fs cwd (abspath cwd "output/md_trajetory_id_0.dcd") = false :=
      Bool.not_eq_true _ ▸ Bool.eq_false_iff.2 hexp
    simp only [resolveTrajectory, resolveTrajectoryFull, hexp', Bool.false_eq_true,
      if_false] at hne ⊢
    cases hfind : firstGlobMatch fs trajPatterns with
    | none => simp [hfind] at hne
    | some m =>
      simp only [hfind]
      obtain ⟨pat, hpat, hmg⟩ := firstGlobMatch_some fs trajPatterns m hfind
      obtain ⟨hmfs, hmatch⟩ := List.mem_filter.1 hmg
      have hrel : pyStartsWith m "/" = false := trajGlob_not_abs pat m hpat hmatch
      rw [pexists_abspath fs cwd m hrel]
      exact contains_of_mem fs m hmfs

/-! ### Claim C7 -/

/-- Claim C7: a worker run that validates both input files (and the
starting state when one is given) and whose pipeline raises nowhere
invokes all five stages, exits with code 0 through no error handler, and
prints both sentinel-prefixed lines: `TOPOLOGY_FILE:` followed by the
resolved path when resolution produced one, and followed by the
human-readable `Not found` placeholder when it did not — likewise for
`TRAJECTORY_FILE:` — so the run succeeds even when one or both output
files were not found. -/
theorem c7_worker_success_reporting (argv : List String) (env : WorkerEnv)
    (hargv : argv.length = 2)
    (hcwd : pyStartsWith env.cwd "/" = true)
    (h1 : pexists env.fs0 env.cwd env.params.protein_file = true)
    (h2 : pexists env.fs0 env.cwd env.params.ligand_file = true)
    (h3 : env.params.starting_state_path = "" ∨
      pexists env.fs0 env.cwd env.params.starting_state_path = true)
    (hfail : env.failAt = none) :
    (workerMain argv env).exitCode = 0 ∧
    (workerMain argv env).err = none ∧
    (workerMain argv env).stages = stageList ∧
    (resolveTopology env.fs1 env.cwd ≠ "" →
      ("TOPOLOGY_FILE:" ++ resolveTopology env.fs1 env.cwd) ∈ (workerMain argv env).output) ∧
    (resolveTopology env.fs1 env.cwd = "" →
      "TOPOLOGY_FILE:Not found - expected at output/emin.pdb" ∈ (workerMain argv env).output) ∧
    (resolveTrajectory env.fs1 env.cwd ≠ "" →
      ("TRAJECTORY_FILE:" ++ resolveTrajectory env.fs1 env.cwd) ∈ (workerMain argv env).output) ∧
    (resolveTrajectory env.fs1 env.cwd = "" →
      "TRAJECTORY_FILE:Not found - expected at output/md_trajectory_id_0.dcd" ∈
        (workerMain argv env).output) := by
  have hval3 : ¬ (env.params.starting_state_path ≠ "" ∧
      ¬ pexists env.fs0 env.cwd env.params.starting_state_path = true) := by
    rcases h3 with h3 | h3 <;> simp [h3]
  rcases htf : resolveTopologyFull env.fs1 env.cwd with ⟨t, tlog⟩
  have htres : resolveTopology env.fs1 env.cwd = t := by rw [resolveTopology, htf]
  rcases hjf : resolveTrajectoryFull env.fs1 env.cwd with ⟨j, jlog⟩
  have hjres : resolveTrajectory env.fs1 env.cwd = j := by rw [resolveTrajectory, hjf]
  rw [htres, hjres]
  simp only [workerMain, hargv, h1, h2, hval3, hfail, pipelineRun_none, htf, hjf,
    not_true_eq_false, Bool.true_eq_false, if_false, ite_false, ne_eq, not_false_eq_true]
  refine ⟨trivial, trivial, trivial, ?_, ?_, ?_, ?_⟩
  · intro ht
    have hpex : pexists env.fs1 env.cwd t = true := by
      have hp := resolveTopology_pexists env.fs1 env.cwd hcwd (by rw [htres]; exact ht)
      rw [htres] at hp
      exact hp
    simp [ht, hpex, List.mem_append]
  · intro ht
    simp [ht, List.mem_append]
  · intro hj
    have hpex : pexists env.fs1 env.cwd j = true := by
      have hp := resolveTrajectory_pexists env.fs1 env.cwd (by rw [hjres]; exact hj)
      rw [hjres] at hp
      exact hp
    simp [hj, hpex, List.mem_append]
  · intro hj
    simp [hj, List.mem_append]

/-- Claim C7, witness: a successful pipeline after which neither output
file exists still exits 0 and prints both placeholder sentinel lines. -/
theorem c7_worker_success_reporting_witness :
    (workerMain ["run_md_simulation.py", "/tmp/params.json"] envC7).exitCode = 0 ∧
    "TOPOLOGY_FILE:Not found - expected at output/emin.pdb" ∈
      (workerMain ["run_md_simulation.py", "/tmp/params.json"] envC7).output ∧
    "TRAJECTORY_FILE:Not found - expected at output/md_trajectory_id_0.dcd" ∈
      (workerMain ["run_md_simulation.py", "/tmp/params.json"] envC7).output := by
  have h := c7_worker_success_reporting ["run_md_simulation.py", "/tmp/params.json"]
    envC7 rfl (by decide) (by decide) (by decide) (Or.inl rfl) rfl
  exact ⟨h.1, h.2.2.2.2.1 (by decide), h.2.2.2.2.2.2 (by decide)⟩

/-! ### Claim C8 -/

/-- Claim C8: when the expected topology path `output/emin.pdb` does not
exist after a successful pipeline, the worker resolves the topology to
the absolute path of the first entry of the fixed ordered list
`["output/emin.pdb", "emin.pdb", "output/system.pdb", "system.pdb"]`
that exists: if the list splits as `pre ++ f :: post` with nothing in
`pre` existing and `f` existing, the result is `abspath f`. -/
theorem c8_topology_fallback (fs : List String) (cwd : String)
    (hexp : pexists fs cwd (abspath cwd "output/emin.pdb") = false)
    (pre post : List String) (f : String)
    (hsplit : altTopoFiles = pre ++ f :: post)
    (hpre : ∀ g ∈ pre, pexists fs cwd g = false)
    (hf : pexists fs cwd f = true) :
    resolveTopology fs cwd = abspath cwd f := by
  simp only [resolveTopology, resolveTopologyFull, hexp, Bool.false_eq_true, if_false]
  rw [hsplit, List.find?_append]
  have h1 : List.find? (fun g => pexists fs cwd g) pre = none := by
    refine List.find?_eq_none.2 (fun g hg => ?_)
    simp [hpre g hg]
  rw [h1]
  simp [List.find?_cons, hf]

/-- Claim C8, witness: with the expected topology absent but
`output/system.pdb` present, the topology resolves to the absolute path
of `output/system.pdb`. -/
theorem c8_topology_fallback_witness :
    pexists ["output/system.pdb"] "/work" (abspath "/work" "output/emin.pdb") = false ∧
    pexists ["output/system.pdb"] "/work" "output/system.pdb" = true ∧
    resolveTopology ["output/system.pdb"] "/work" = "/work/output/system.pdb" := by
  refine ⟨by decide, by decide, ?_⟩
  have h := c8_topology_fallback ["output/system.pdb"] "/work" (by decide)
    ["output/emin.pdb", "emin.pdb"] ["system.pdb"] "output/system.pdb" rfl
    (by decide) (by decide)
  exact h.trans (by decide)

/-! ### Claim C9 -/

/-- First match of the first pattern with any match, through a run of
matchless patterns. -/
theorem firstGlobMatch_append (fs : List String) (pre : List String) (pat : String)
    (post : List String) (hpre : ∀ q ∈ pre, glob fs q = []) (m : String)
    (rest : List String) (hm : glob fs pat = m :: rest) :
    firstGlobMatch fs (pre ++ pat :: post) = some m := by
  induction pre with
  | nil => simp [firstGlobMatch, hm]
  | cons q pre ih =>
    rw [List.cons_append, firstGlobMatch, hpre q (List.mem_cons_self _ _)]
    exact ih (fun q' h => hpre q' (List.mem_cons_of_mem _ h))

/-- Claim C9: when the expected trajectory path
`output/md_trajetory_id_0.dcd` (misspelling preserved) does not exist
after a successful pipeline, the worker checks the fixed ordered pattern
list `["output/md_trajectory_id_*.dcd", "output/md_trajectory*.dcd",
"output/trajectory*.dcd", "md_trajectory_id_*.dcd", "trajectory.dcd"]` in
priority order and resolves the trajectory to the absolute path of the
first match of the first pattern that matches anything. -/
theorem c9_trajectory_fallback (fs : List String) (cwd : String)
    (hexp : pexists fs cwd (abspath cwd "output/md_trajetory_id_0.dcd") = false)
    (pre post : List String) (pat : String)
    (hsplit : trajPatterns = pre ++ pat :: post)
    (hpre : ∀ q ∈ pre, glob fs q = [])
    (m : String) (rest : List String) (hm : glob fs pat = m :: rest) :
    resolveTrajectory fs cwd = abspath cwd m := by
  simp only [resolveTrajectory, resolveTrajectoryFull, hexp, Bool.false_eq_true, if_false]
  rw [hsplit, firstGlobMatch_append fs pre pat post hpre m rest hm]

/-- Claim C9, witness: with no match for the first two patterns and one
file matching `output/trajectory*.dcd`, the trajectory resolves to that
match. -/
theorem c9_trajectory_fallback_witness :
    glob ["output/trajectory_1.dcd"] "output/md_trajectory_id_*.dcd" = [] ∧
    glob ["output/trajectory_1.dcd"] "output/trajectory*.dcd" =
      ["output/trajectory_1.dcd"] ∧
    resolveTrajectory ["output/trajectory_1.dcd"] "/work" =
      "/work/output/trajectory_1.dcd" := by
  refine ⟨by decide, by decide, ?_⟩
  have h := c9_trajectory_fallback ["output/trajectory_1.dcd"] "/work" (by decide)
    ["output/md_trajectory_id_*.dcd", "output/md_trajectory*.dcd"]
    ["md_trajectory_id_*.dcd", "trajectory.dcd"] "output/trajectory*.dcd" rfl
    (by decide) "output/trajectory_1.dcd" [] (by decide)
  exact h.trans (by decide)

/-! ### Claim C10 -/

/-- Claim C10: on every failure path of the launcher the host block's
outputs are untouched — whenever the launcher raises, no `setOutput` call
was made — and conversely `setOutput` is invoked only on runs where the
child was spawned, exited with code 0, and nothing was raised. -/
theorem c10_outputs_only_after_zero_exit (env : LauncherEnv) :
    ((runMDSimulation env).raised.isSome = true → (runMDSimulation env).outputsSet = []) ∧
    ((runMDSimulation env).outputsSet ≠ [] →
      (runMDSimulation env).spawned = true ∧ env.childExit = 0 ∧
      (runMDSimulation env).raised = none) := by
  obtain ⟨pi, li, v1, v2, v3, v4, v5, v6, sd, tn, tof, tom, df, dm, spf, spm, rfa, cl, ce⟩ := env
  cases pi <;> cases li <;> cases tof <;> cases df <;> cases spf <;> cases rfa <;>
    by_cases hce : ce = 0 <;> simp_all [runMDSimulation]

/-- Claim C10, witness: a child exiting 1 makes the launcher raise and
leaves the block outputs unset. -/
theorem c10_outputs_only_after_zero_exit_witness :
    (runMDSimulation envC10fail).raised.isSome = true ∧
    (runMDSimulation envC10fail).outputsSet = [] :=
  ⟨by decide, (c10_outputs_only_after_zero_exit envC10fail).1 (by decide)⟩

end EasyMD
